import Mathlib

/-!
Shallow embedding of `src/backend/main.py` and `src/backend/test_local.py`:
a photo-frame HTTP function that classifies an uploaded photo with a remote
vision model, composites it into a decorative frame, and uploads the result
to object storage.

Modelling conventions.
* An image is modelled by its width, height and colour mode; pixel contents
  play no role in any property considered here, and PIL operations are
  modelled by their effect on dimensions and mode.
* Python float arithmetic in the resizer is modelled by exact rational
  arithmetic; Python `int(...)` truncation toward zero is `pyInt`.
* Python exceptions are modelled by `Except PyError`; the results of the
  external calls (opening an image file, the remote Gemini response, the
  GCS upload) are passed in as `Except` parameters.
* Python `str.strip`, `str.lower` and `str.endswith` are modelled over the
  character list of the string.
* Python `//` (floor division) on integers is Lean `Int` division `/`
  (Euclidean division, which floors for the positive divisors used here).
-/

/-- The kinds of Python exception relevant to the embedded code, plus the
`invalidImage` error that the specification asks for in the degenerate
resizer case. -/
inductive PyError where
  | zeroDivision
  | valueError
  | ioError
  | apiError
  | invalidImage
deriving DecidableEq

/-- Message text attached to an exception, as interpolated into the
handler's 500 response. -/
def PyError.msg : PyError → String
  | .zeroDivision => "division by zero"
  | .valueError => "ValueError"
  | .ioError => "IOError"
  | .apiError => "API error"
  | .invalidImage => "InvalidImage"

/-- A PIL image, abstracted to its dimensions and colour mode. -/
structure Img where
  width : ℕ
  height : ℕ
  mode : String
deriving DecidableEq

/-- Decidable equality for `Except`, needed to evaluate the embedded
fallible operations on concrete inputs. -/
instance {ε α : Type} [DecidableEq ε] [DecidableEq α] : DecidableEq (Except ε α) := fun a b =>
  match a, b with
  | Except.error x, Except.error y =>
    if h : x = y then isTrue (by rw [h]) else
      isFalse (fun hc => h (by injection hc))
  | Except.error _, Except.ok _ => isFalse (fun hc => Except.noConfusion hc)
  | Except.ok _, Except.error _ => isFalse (fun hc => Except.noConfusion hc)
  | Except.ok x, Except.ok y =>
    if h : x = y then isTrue (by rw [h]) else
      isFalse (fun hc => h (by injection hc))

/-- Python `str.lower()` (character-wise lower-casing). -/
def py_lower (s : String) : String := ⟨s.data.map Char.toLower⟩

/-- Python `str.strip()`: remove leading and trailing whitespace. -/
def py_strip (s : String) : String :=
  ⟨((s.data.dropWhile Char.isWhitespace).reverse.dropWhile Char.isWhitespace).reverse⟩

/-- Python `s.endswith(suffix)`. -/
def py_endswith (s suffix : String) : Bool := suffix.data.isSuffixOf s.data

/-- Python `int(q)`: truncation toward zero (for `q < 0` this is the
ceiling, written `-⌊-q⌋`; otherwise the floor). -/
def pyInt (q : ℚ) : ℤ := if q < 0 then -⌊-q⌋ else ⌊q⌋

/-- `resize_image_to_fit(image, target_width, target_height)` from
`main.py` lines 70-90.  Computes `width_ratio = target_width /
original_width`, `height_ratio = target_height / original_height`, scales
both dimensions by `min` of the two, and calls PIL `resize`.  A zero
source dimension raises `ZeroDivisionError` at the ratio computation; PIL
`resize` raises `ValueError` whenever a requested dimension is below 1
(the `xsize < 1 || ysize < 1` check in Pillow's C core). -/
def resize_image_to_fit (image : Img) (target_width target_height : ℤ) : Except PyError Img :=
  if image.width = 0 ∨ image.height = 0 then Except.error PyError.zeroDivision
  else
    let width_ratio : ℚ := (target_width : ℚ) / (image.width : ℚ)
    let height_ratio : ℚ := (target_height : ℚ) / (image.height : ℚ)
    let scale_ratio : ℚ := min width_ratio height_ratio
    let new_width : ℤ := pyInt ((image.width : ℚ) * scale_ratio)
    let new_height : ℤ := pyInt ((image.height : ℚ) * scale_ratio)
    if new_width < 1 ∨ new_height < 1 then Except.error PyError.valueError
    else Except.ok ⟨new_width.toNat, new_height.toNat, image.mode⟩

/-- PIL `Image.alpha_composite(im1, im2)`: both images must be RGBA and of
equal size, otherwise PIL raises `ValueError`. -/
def alpha_composite (im1 im2 : Img) : Except PyError Img :=
  if im1.width = im2.width ∧ im1.height = im2.height
      ∧ im1.mode = "RGBA" ∧ im2.mode = "RGBA" then
    Except.ok ⟨im1.width, im1.height, "RGBA"⟩
  else Except.error PyError.valueError

/-- The intermediate data of a successful run of `create_framed_image`:
the resized user image, the paste offsets, and the flattened output. -/
structure Composite where
  resized : Img
  x_offset : ℤ
  y_offset : ℤ
  final : Img
deriving DecidableEq

/-- The body of the `try` block of `create_framed_image` (`main.py` lines
25-64), step by step: load the frame (`frame_load` is the outcome of
`Image.open(frame_path)`), convert it to RGBA, compute the padded target
box, resize the user image into it, allocate an RGBA canvas at frame
size, compute the centering offsets, paste, alpha-composite the frame on
top, and flatten to RGB. -/
def create_framed_image_steps (user_image : Img) (frame_load : Except PyError Img) :
    Except PyError Composite := do
  let frame0 ← frame_load
  let frame := if frame0.mode ≠ "RGBA" then { frame0 with mode := "RGBA" } else frame0
  let frame_width := frame.width
  let frame_height := frame.height
  let padding : ℤ := 50
  let target_width : ℤ := (frame_width : ℤ) - 2 * padding
  let target_height : ℤ := (frame_height : ℤ) - 2 * padding
  let user_image_resized ← resize_image_to_fit user_image target_width target_height
  let result : Img := ⟨frame_width, frame_height, "RGBA"⟩
  let user_width := user_image_resized.width
  let user_height := user_image_resized.height
  let x_offset : ℤ := ((frame_width : ℤ) - (user_width : ℤ)) / 2
  let y_offset : ℤ := ((frame_height : ℤ) - (user_height : ℤ)) / 2
  let composed ← alpha_composite result frame
  let final_result : Img := ⟨composed.width, composed.height, "RGB"⟩
  return { resized := user_image_resized, x_offset := x_offset,
           y_offset := y_offset, final := final_result }

/-- `create_framed_image(user_image, frame_path)` from `main.py` lines
23-68: run the compositing steps; any exception is caught and the
unmodified user image is returned. -/
def create_framed_image (user_image : Img) (frame_load : Except PyError Img) : Img :=
  match create_framed_image_steps user_image frame_load with
  | Except.ok c => c.final
  | Except.error _ => user_image

/-- `analyze_image_with_gemini(image)` from `main.py` lines 92-117.
`response` is the outcome of the remote `model.generate_content` call; on
success the function returns `response.text.strip().lower()`, and any
exception is caught and mapped to `"no"`. -/
def analyze_image_with_gemini (response : Except PyError String) : String :=
  match response with
  | Except.ok text => py_lower (py_strip text)
  | Except.error _ => "no"

/-- The handler's frame selection (`main.py` lines 188-195): the verdict
`"yes"` selects the yes frame, anything else selects the no frame. -/
def frame_type_of (analysis_result : String) : String :=
  if analysis_result = "yes" then "yes" else "no"

/-- The encoding parameters and key of the object written by
`upload_to_gcs` (`main.py` lines 119-141): the image is saved as WEBP at
quality 85 under `filename`. -/
structure SavedObject where
  filename : String
  format : String
  quality : ℕ
  width : ℕ
  height : ℕ
deriving DecidableEq

/-- `upload_to_gcs(image, filename)`: encode the image as WEBP quality 85
and upload.  `gcs` is the outcome of the blob upload; an upload failure is
re-raised to the caller. -/
def upload_to_gcs (image : Img) (filename : String) (gcs : Except PyError String) :
    SavedObject × Except PyError String :=
  (⟨filename, "WEBP", 85, image.width, image.height⟩, gcs)

/-- The JSON body of a handler response: empty (OPTIONS preflight), an
error object, or the success object. -/
inductive RespBody where
  | empty
  | failure (err : String)
  | success (imageUrl frameStyle analysisResult message : String)
deriving DecidableEq

/-- An HTTP response: body and status code. -/
structure HttpResponse where
  body : RespBody
  status : ℕ
deriving DecidableEq

/-- The externally visible work performed by the handler. -/
inductive Effect where
  | classify
  | composite
  | upload (obj : SavedObject)
deriving DecidableEq

/-- An uploaded multipart file: its client-supplied filename and the
outcome of `Image.open` on its contents. -/
structure PhotoFile where
  filename : String
  opened : Except PyError Img
deriving DecidableEq

/-- An inbound HTTP request: method and multipart files. -/
structure HttpRequest where
  method : String
  files : List (String × PhotoFile)
deriving DecidableEq

/-- `process_photo(request)` from `main.py` lines 143-226.  External
nondeterminism is passed in: `gemini` is the remote model outcome,
`frames` maps a frame path to the outcome of opening it, `gcs` is the
upload outcome, `timestamp` and `unique_id` are the generated key parts.
Returns the response together with the trace of effects performed. -/
def process_photo (request : HttpRequest) (gemini : Except PyError String)
    (frames : String → Except PyError Img) (gcs : Except PyError String)
    (timestamp unique_id : String) : HttpResponse × List Effect :=
  if request.method = "OPTIONS" then (⟨RespBody.empty, 204⟩, [])
  else if request.method ≠ "POST" then
    (⟨RespBody.failure "Only POST method is allowed", 405⟩, [])
  else
    match request.files.lookup "photo" with
    | none => (⟨RespBody.failure "No photo file provided", 400⟩, [])
    | some photo_file =>
      if ¬ (py_endswith (py_lower photo_file.filename) ".jpg"
            ∨ py_endswith (py_lower photo_file.filename) ".jpeg"
            ∨ py_endswith (py_lower photo_file.filename) ".png") then
        (⟨RespBody.failure "Invalid file type. Only JPG, JPEG, and PNG are allowed", 400⟩, [])
      else
        match photo_file.opened with
        | Except.error e =>
          (⟨RespBody.failure ("Internal server error: " ++ e.msg), 500⟩, [])
        | Except.ok image0 =>
          let image := if image0.mode ≠ "RGB" then { image0 with mode := "RGB" } else image0
          let analysis_result := analyze_image_with_gemini gemini
          let frame_path := if analysis_result = "yes" then "yes.png" else "no.png"
          let frame_type := frame_type_of analysis_result
          let framed_image := create_framed_image image (frames frame_path)
          let filename :=
            "framed_photos/" ++ timestamp ++ "_" ++ unique_id ++ "_" ++ frame_type ++ ".webp"
          let (obj, uploaded) := upload_to_gcs framed_image filename gcs
          match uploaded with
          | Except.error e =>
            (⟨RespBody.failure ("Internal server error: " ++ e.msg), 500⟩,
             [Effect.classify, Effect.composite, Effect.upload obj])
          | Except.ok image_url =>
            (⟨RespBody.success image_url frame_type analysis_result
                ("Photo processed successfully with " ++ frame_type ++ " frame"), 200⟩,
             [Effect.classify, Effect.composite, Effect.upload obj])

namespace test_local

/-- `resize_image_to_fit` from `test_local.py` lines 125-145 (the local
harness's copy, embedded separately so the two can be compared). -/
def resize_image_to_fit (image : Img) (target_width target_height : ℤ) : Except PyError Img :=
  if image.width = 0 ∨ image.height = 0 then Except.error PyError.zeroDivision
  else
    let width_ratio : ℚ := (target_width : ℚ) / (image.width : ℚ)
    let height_ratio : ℚ := (target_height : ℚ) / (image.height : ℚ)
    let scale_ratio : ℚ := min width_ratio height_ratio
    let new_width : ℤ := pyInt ((image.width : ℚ) * scale_ratio)
    let new_height : ℤ := pyInt ((image.height : ℚ) * scale_ratio)
    if new_width < 1 ∨ new_height < 1 then Except.error PyError.valueError
    else Except.ok ⟨new_width.toNat, new_height.toNat, image.mode⟩

/-- The `try` body of `create_framed_image` from `test_local.py` lines
80-119 (the harness's copy). -/
def create_framed_image_steps (user_image : Img) (frame_load : Except PyError Img) :
    Except PyError Composite := do
  let frame0 ← frame_load
  let frame := if frame0.mode ≠ "RGBA" then { frame0 with mode := "RGBA" } else frame0
  let frame_width := frame.width
  let frame_height := frame.height
  let padding : ℤ := 50
  let target_width : ℤ := (frame_width : ℤ) - 2 * padding
  let target_height : ℤ := (frame_height : ℤ) - 2 * padding
  let user_image_resized ← test_local.resize_image_to_fit user_image target_width target_height
  let result : Img := ⟨frame_width, frame_height, "RGBA"⟩
  let user_width := user_image_resized.width
  let user_height := user_image_resized.height
  let x_offset : ℤ := ((frame_width : ℤ) - (user_width : ℤ)) / 2
  let y_offset : ℤ := ((frame_height : ℤ) - (user_height : ℤ)) / 2
  let composed ← alpha_composite result frame
  let final_result : Img := ⟨composed.width, composed.height, "RGB"⟩
  return { resized := user_image_resized, x_offset := x_offset,
           y_offset := y_offset, final := final_result }

/-- `create_framed_image` from `test_local.py` lines 78-123 (the
harness's copy). -/
def create_framed_image (user_image : Img) (frame_load : Except PyError Img) : Img :=
  match test_local.create_framed_image_steps user_image frame_load with
  | Except.ok c => c.final
  | Except.error _ => user_image

end test_local

/-- Claim C1 counterexample: on the remote response text `"maybe"` the
classifier returns `"maybe"`, which is neither `"yes"` nor `"no"`; the
classify operation does not itself collapse non-affirmative answers to
`"no"`. -/
theorem analyze_image_with_gemini_not_binary :
    ¬ (analyze_image_with_gemini (Except.ok "maybe") = "yes"
       ∨ analyze_image_with_gemini (Except.ok "maybe") = "no") := by decide

/-- Claim C1 (amended): the classifier returns the trimmed, lower-cased
remote response text, which can be any string; any transport or model
error is caught and mapped to `"no"`; and it is the handler's frame
selection that treats every value other than exactly `"yes"` as `"no"`. -/
theorem analyze_image_with_gemini_fail_safe :
    (∀ e : PyError, analyze_image_with_gemini (Except.error e) = "no")
    ∧ (∀ s : String, analyze_image_with_gemini (Except.ok s) = py_lower (py_strip s))
    ∧ (∀ r : Except PyError String,
        frame_type_of (analyze_image_with_gemini r) = "yes"
        ∨ frame_type_of (analyze_image_with_gemini r) = "no") := by
  refine ⟨fun _ => rfl, fun _ => rfl, fun r => ?_⟩
  unfold frame_type_of
  by_cases h : analyze_image_with_gemini r = "yes" <;> simp [h]

/-- Claim C3: `create_framed_image` is a total function; whenever any step
of the compositing pipeline fails it returns the unmodified source image,
and whenever the pipeline succeeds it returns the composite. -/
theorem create_framed_image_fallback (user_image : Img) (frame_load : Except PyError Img) :
    (∀ e : PyError, create_framed_image_steps user_image frame_load = Except.error e →
        create_framed_image user_image frame_load = user_image)
    ∧ (∀ c : Composite, create_framed_image_steps user_image frame_load = Except.ok c →
        create_framed_image user_image frame_load = c.final) := by
  constructor
  · intro e h; unfold create_framed_image; rw [h]
  · intro c h; unfold create_framed_image; rw [h]

/-- Claim C3 witness: a missing frame asset makes `create_framed_image`
return the source image unchanged. -/
theorem create_framed_image_fallback_witness :
    create_framed_image ⟨7, 3, "RGB"⟩ (Except.error PyError.ioError) = ⟨7, 3, "RGB"⟩ :=
  (create_framed_image_fallback ⟨7, 3, "RGB"⟩ (Except.error PyError.ioError)).1
    PyError.ioError (by decide)

/-- Claim C5 counterexample: on a source image of width 0 the resizer
raises `ZeroDivisionError`; it does not produce the `InvalidImage` error
the specification calls for. -/
theorem resize_image_to_fit_zero_width_raises :
    resize_image_to_fit ⟨0, 10, "RGB"⟩ 100 100 = Except.error PyError.zeroDivision
    ∧ resize_image_to_fit ⟨0, 10, "RGB"⟩ 100 100 ≠ Except.error PyError.invalidImage := by
  decide

/-- Claim C5 (amended): on a source image whose width or height is 0 the
resizer raises `ZeroDivisionError` (the division by zero propagates as an
exception); no `InvalidImage` error exists in the code. -/
theorem resize_image_to_fit_zero_dims (image : Img) (W H : ℤ)
    (h : image.width = 0 ∨ image.height = 0) :
    resize_image_to_fit image W H = Except.error PyError.zeroDivision := by
  unfold resize_image_to_fit
  rw [if_pos h]

/-- Claim C5 witness: the amended statement at a concrete degenerate
image. -/
theorem resize_image_to_fit_zero_dims_witness :
    resize_image_to_fit ⟨0, 10, "RGB"⟩ 5 7 = Except.error PyError.zeroDivision :=
  resize_image_to_fit_zero_dims ⟨0, 10, "RGB"⟩ 5 7 (by decide)

/-- Claim C8: a request whose method is neither POST nor OPTIONS gets a
405 response carrying exactly the message
`Only POST method is allowed`, and the handler performs no
classification, compositing or storage effect. -/
theorem process_photo_method_not_allowed (request : HttpRequest)
    (gemini : Except PyError String) (frames : String → Except PyError Img)
    (gcs : Except PyError String) (timestamp unique_id : String)
    (hpost : request.method ≠ "POST") (hopt : request.method ≠ "OPTIONS") :
    process_photo request gemini frames gcs timestamp unique_id
      = (⟨RespBody.failure "Only POST method is allowed", 405⟩, []) := by
  unfold process_photo
  rw [if_neg hopt, if_pos hpost]

/-- Claim C8 witness: a GET request is rejected with 405 and an empty
effect trace. -/
theorem process_photo_method_not_allowed_witness :
    process_photo ⟨"GET", []⟩ (Except.error PyError.apiError)
      (fun _ => Except.error PyError.ioError) (Except.error PyError.ioError)
      "20260101_000000" "abcd1234"
      = (⟨RespBody.failure "Only POST method is allowed", 405⟩, []) :=
  process_photo_method_not_allowed ⟨"GET", []⟩ (Except.error PyError.apiError)
    (fun _ => Except.error PyError.ioError) (Except.error PyError.ioError)
    "20260101_000000" "abcd1234" (by decide) (by decide)

/-- Claim C9: the local test harness's `create_framed_image` and
`resize_image_to_fit` are the same functions as the handler's: they agree
on every input. -/
theorem test_local_matches_main :
    test_local.create_framed_image = create_framed_image
    ∧ test_local.resize_image_to_fit = resize_image_to_fit :=
  ⟨rfl, rfl⟩

/-- Python `int()` of a quantity that came out at least 1 took the
nonnegative branch, so it is the floor. -/
theorem pyInt_eq_floor_of_one_le (q : ℚ) (h : 1 ≤ pyInt q) : pyInt q = ⌊q⌋ := by
  by_cases hq : q < 0
  · exfalso
    have h0 : (0 : ℤ) ≤ ⌊-q⌋ := Int.floor_nonneg.2 (by linarith)
    have he : pyInt q = -⌊-q⌋ := if_pos hq
    omega
  · exact if_neg hq

/-- Inversion of a successful resize: the source dimensions were nonzero,
both outputs are the floors of the exactly scaled dimensions, both floors
are at least 1 (PIL accepted them), and the mode is preserved. -/
theorem resize_image_to_fit_ok_elim (image : Img) (W H : ℤ) (out : Img)
    (h : resize_image_to_fit image W H = Except.ok out) :
    0 < image.width ∧ 0 < image.height
    ∧ (out.width : ℤ)
        = ⌊(image.width : ℚ) * min ((W : ℚ) / (image.width : ℚ)) ((H : ℚ) / (image.height : ℚ))⌋
    ∧ (out.height : ℤ)
        = ⌊(image.height : ℚ) * min ((W : ℚ) / (image.width : ℚ)) ((H : ℚ) / (image.height : ℚ))⌋
    ∧ 1 ≤ ⌊(image.width : ℚ) * min ((W : ℚ) / (image.width : ℚ)) ((H : ℚ) / (image.height : ℚ))⌋
    ∧ 1 ≤ ⌊(image.height : ℚ) * min ((W : ℚ) / (image.width : ℚ)) ((H : ℚ) / (image.height : ℚ))⌋
    ∧ out.mode = image.mode := by
  simp only [resize_image_to_fit] at h
  split at h
  next hcond => exact absurd h (by simp)
  next hne =>
    split at h
    next hguard => exact absurd h (by simp)
    next hguard =>
      push_neg at hne hguard
      obtain ⟨hw0, hh0⟩ := hne
      obtain ⟨hgw, hgh⟩ := hguard
      have hfw := pyInt_eq_floor_of_one_le _ hgw
      have hfh := pyInt_eq_floor_of_one_le _ hgh
      have h1w : 1 ≤ ⌊(image.width : ℚ)
          * min ((W : ℚ) / (image.width : ℚ)) ((H : ℚ) / (image.height : ℚ))⌋ := hfw ▸ hgw
      have h1h : 1 ≤ ⌊(image.height : ℚ)
          * min ((W : ℚ) / (image.width : ℚ)) ((H : ℚ) / (image.height : ℚ))⌋ := hfh ▸ hgh
      injection h with h
      subst h
      dsimp only
      rw [hfw, hfh]
      exact ⟨Nat.pos_of_ne_zero hw0, Nat.pos_of_ne_zero hh0,
        Int.toNat_of_nonneg (le_trans zero_le_one h1w),
        Int.toNat_of_nonneg (le_trans zero_le_one h1h), h1w, h1h, rfl⟩

/-- Claim C2 counterexample: a 200 × 100 source in a 1 × 100 box floors
the scaled height to 0, and PIL `resize` raises `ValueError` instead of
returning an image with the floored dimensions. -/
theorem resize_image_to_fit_thin_box_raises :
    resize_image_to_fit ⟨200, 100, "RGB"⟩ 1 100 = Except.error PyError.valueError := by
  norm_num [resize_image_to_fit, pyInt, min_def]

/-- Claim C2 (amended): whenever the resizer returns an image, its
dimensions are exactly `floor(srcWidth * scale) × floor(srcHeight *
scale)` with `scale = min (W / srcWidth) (H / srcHeight)` and no cap of
the scale at 1, so a small source is upscaled past native resolution;
when a floored dimension falls below 1, PIL `resize` raises `ValueError`
instead. -/
theorem resize_image_to_fit_scales_exactly (image : Img) (W H : ℤ) (out : Img)
    (h : resize_image_to_fit image W H = Except.ok out) :
    (out.width : ℤ)
        = ⌊(image.width : ℚ)
            * min ((W : ℚ) / (image.width : ℚ)) ((H : ℚ) / (image.height : ℚ))⌋
    ∧ (out.height : ℤ)
        = ⌊(image.height : ℚ)
            * min ((W : ℚ) / (image.width : ℚ)) ((H : ℚ) / (image.height : ℚ))⌋
    ∧ out.mode = image.mode :=
  ⟨(resize_image_to_fit_ok_elim image W H out h).2.2.1,
   (resize_image_to_fit_ok_elim image W H out h).2.2.2.1,
   (resize_image_to_fit_ok_elim image W H out h).2.2.2.2.2.2⟩

/-- Claim C2 witness: a 10 × 5 source in a 30 × 20 box succeeds and is
upscaled by the uncapped scale 3 to 30 × 15. -/
theorem resize_image_to_fit_scales_exactly_witness :
    (((⟨30, 15, "RGB"⟩ : Img).width : ℤ))
        = ⌊((10 : ℕ) : ℚ)
            * min (((30 : ℤ) : ℚ) / ((10 : ℕ) : ℚ)) (((20 : ℤ) : ℚ) / ((5 : ℕ) : ℚ))⌋
    ∧ (((⟨30, 15, "RGB"⟩ : Img).height : ℤ))
        = ⌊((5 : ℕ) : ℚ)
            * min (((30 : ℤ) : ℚ) / ((10 : ℕ) : ℚ)) (((20 : ℤ) : ℚ) / ((5 : ℕ) : ℚ))⌋
    ∧ (⟨30, 15, "RGB"⟩ : Img).mode = "RGB" :=
  resize_image_to_fit_scales_exactly ⟨10, 5, "RGB"⟩ 30 20 ⟨30, 15, "RGB"⟩
    (by norm_num [resize_image_to_fit, pyInt, min_def] <;> decide)

/-- Claim C7 counterexample: a 100 × 200 source in a 100 × 1 box floors
the scaled width to 0 and PIL `resize` raises `ValueError`, so the
resizer produces no output for these positive bounds and source
dimensions. -/
theorem resize_image_to_fit_flat_box_raises :
    resize_image_to_fit ⟨100, 200, "RGB"⟩ 100 1 = Except.error PyError.valueError := by
  norm_num [resize_image_to_fit, pyInt, min_def]

/-- Claim C7 (amended): for positive bounds, whenever the resizer returns
an image, the output fits the box in at least one dimension when the
scale is at most 1, and the output dimensions are the independent floors
of a pair of exact dimensions in the source's exact aspect ratio; when a
floored output dimension falls below 1, PIL `resize` raises instead. -/
theorem resize_image_to_fit_fits_and_aspect (image : Img) (W H : ℤ) (out : Img)
    (hW : 0 < W) (hH : 0 < H)
    (h : resize_image_to_fit image W H = Except.ok out) :
    (min ((W : ℚ) / (image.width : ℚ)) ((H : ℚ) / (image.height : ℚ)) ≤ 1 →
        (out.width : ℤ) ≤ W ∨ (out.height : ℤ) ≤ H)
    ∧ ∃ a b : ℚ, (out.width : ℤ) = ⌊a⌋ ∧ (out.height : ℤ) = ⌊b⌋
        ∧ a * (image.height : ℚ) = b * (image.width : ℚ) := by
  obtain ⟨hw, hh, hweq, hheq, h1w, h1h, hmode⟩ := resize_image_to_fit_ok_elim image W H out h
  have hwq : (0 : ℚ) < (image.width : ℚ) := by exact_mod_cast hw
  refine ⟨fun _ => Or.inl ?_, ⟨_, _, hweq, hheq, by ring⟩⟩
  rw [hweq]
  have h1 : (image.width : ℚ)
      * min ((W : ℚ) / (image.width : ℚ)) ((H : ℚ) / (image.height : ℚ))
      ≤ (image.width : ℚ) * ((W : ℚ) / (image.width : ℚ)) :=
    mul_le_mul_of_nonneg_left (min_le_left _ _) hwq.le
  have h2 : (image.width : ℚ) * ((W : ℚ) / (image.width : ℚ)) = (W : ℚ) :=
    mul_div_cancel₀ _ hwq.ne'
  have h3 := Int.floor_le_floor (le_of_le_of_eq h1 h2)
  rwa [Int.floor_intCast] at h3

/-- Claim C7 witness: a 40 × 20 source in a 20 × 20 box succeeds at scale
1/2 with output 20 × 10. -/
theorem resize_image_to_fit_fits_and_aspect_witness :
    (min (((20 : ℤ) : ℚ) / ((40 : ℕ) : ℚ)) (((20 : ℤ) : ℚ) / ((20 : ℕ) : ℚ)) ≤ 1 →
        (((⟨20, 10, "RGB"⟩ : Img).width : ℤ)) ≤ 20 ∨ (((⟨20, 10, "RGB"⟩ : Img).height : ℤ)) ≤ 20)
    ∧ ∃ a b : ℚ, (((⟨20, 10, "RGB"⟩ : Img).width : ℤ)) = ⌊a⌋
        ∧ (((⟨20, 10, "RGB"⟩ : Img).height : ℤ)) = ⌊b⌋
        ∧ a * ((20 : ℕ) : ℚ) = b * ((40 : ℕ) : ℚ) :=
  resize_image_to_fit_fits_and_aspect ⟨40, 20, "RGB"⟩ 20 20 ⟨20, 10, "RGB"⟩
    (by decide) (by decide)
    (by norm_num [resize_image_to_fit, pyInt, min_def] <;> decide)

/-- PIL mode conversion to RGBA keeps dimensions and always yields mode
RGBA (the `else` branch only fires when the mode already is RGBA). -/
theorem img_convert_rgba (f : Img) :
    (if f.mode ≠ "RGBA" then { f with mode := "RGBA" } else f)
      = ⟨f.width, f.height, "RGBA"⟩ := by
  cases f with
  | mk w h m => by_cases hm : m = "RGBA" <;> simp [hm]

/-- Characterization of the compositing steps on a successfully loaded
frame: everything after the frame load reduces to the resize outcome
mapped through canvas allocation, centering and flattening. -/
theorem create_framed_image_steps_ok_eq (user_image frame : Img) :
    create_framed_image_steps user_image (Except.ok frame) =
      (resize_image_to_fit user_image ((frame.width : ℤ) - 2 * 50)
          ((frame.height : ℤ) - 2 * 50)).map
        (fun r =>
          { resized := r,
            x_offset := ((frame.width : ℤ) - (r.width : ℤ)) / 2,
            y_offset := ((frame.height : ℤ) - (r.height : ℤ)) / 2,
            final := ⟨frame.width, frame.height, "RGB"⟩ }) := by
  simp only [create_framed_image_steps, bind, Except.bind, img_convert_rgba]
  cases hr : resize_image_to_fit user_image ((frame.width : ℤ) - 2 * 50)
      ((frame.height : ℤ) - 2 * 50) with
  | error e => simp [Except.map]
  | ok r => simp [Except.map, alpha_composite, pure, Except.pure]

/-- Claim C6: whenever the compositing steps succeed, the paste offsets
are the floor halves of the free space, so the resized image's bounding
box is centered in the frame to within one pixel in each axis. -/
theorem create_framed_image_centered (user_image frame : Img) (c : Composite)
    (h : create_framed_image_steps user_image (Except.ok frame) = Except.ok c) :
    c.x_offset = ((frame.width : ℤ) - (c.resized.width : ℤ)) / 2
    ∧ c.y_offset = ((frame.height : ℤ) - (c.resized.height : ℤ)) / 2
    ∧ |(((frame.width : ℤ) - (c.resized.width : ℤ)) - c.x_offset) - c.x_offset| ≤ 1
    ∧ |(((frame.height : ℤ) - (c.resized.height : ℤ)) - c.y_offset) - c.y_offset| ≤ 1 := by
  rw [create_framed_image_steps_ok_eq] at h
  cases hr : resize_image_to_fit user_image ((frame.width : ℤ) - 2 * 50)
      ((frame.height : ℤ) - 2 * 50) with
  | error e => rw [hr] at h; simp [Except.map] at h
  | ok r =>
    rw [hr] at h
    simp only [Except.map] at h
    cases h
    dsimp only
    refine ⟨rfl, rfl, ?_, ?_⟩ <;>
      · rw [abs_le]
        constructor <;> omega

/-- Claim C6 witness: a 200 × 100 source in a 500 × 400 frame is resized
to 400 × 200 and pasted at offsets (50, 100). -/
theorem create_framed_image_centered_witness :
    (⟨⟨400, 200, "RGB"⟩, 50, 100, ⟨500, 400, "RGB"⟩⟩ : Composite).x_offset
        = (((500 : ℕ) : ℤ) - ((400 : ℕ) : ℤ)) / 2
    ∧ (⟨⟨400, 200, "RGB"⟩, 50, 100, ⟨500, 400, "RGB"⟩⟩ : Composite).y_offset
        = (((400 : ℕ) : ℤ) - ((200 : ℕ) : ℤ)) / 2
    ∧ |((((500 : ℕ) : ℤ) - ((400 : ℕ) : ℤ)) - (50 : ℤ)) - (50 : ℤ)| ≤ 1
    ∧ |((((400 : ℕ) : ℤ) - ((200 : ℕ) : ℤ)) - (100 : ℤ)) - (100 : ℤ)| ≤ 1 := by
  have h : create_framed_image_steps ⟨200, 100, "RGB"⟩ (Except.ok ⟨500, 400, "RGB"⟩)
      = Except.ok ⟨⟨400, 200, "RGB"⟩, 50, 100, ⟨500, 400, "RGB"⟩⟩ := by
    rw [create_framed_image_steps_ok_eq]
    norm_num [resize_image_to_fit, pyInt, min_def, Except.map]
    decide
  exact create_framed_image_centered ⟨200, 100, "RGB"⟩ ⟨500, 400, "RGB"⟩
    ⟨⟨400, 200, "RGB"⟩, 50, 100, ⟨500, 400, "RGB"⟩⟩ h

/-- Claim C4 counterexample: a successfully loaded 10 × 10 frame is
smaller than twice the 50-pixel padding, the interior resize raises, and
the fallback returns the 200 × 100 source, so the output does not have
the frame's dimensions. -/
theorem create_framed_image_small_frame :
    (create_framed_image ⟨200, 100, "RGB"⟩ (Except.ok ⟨10, 10, "RGB"⟩)).width ≠ 10 := by
  have hres : resize_image_to_fit ⟨200, 100, "RGB"⟩ (((10 : ℕ) : ℤ) - 2 * 50)
      (((10 : ℕ) : ℤ) - 2 * 50) = Except.error PyError.valueError := by
    norm_num [resize_image_to_fit, pyInt, min_def]
  unfold create_framed_image
  rw [create_framed_image_steps_ok_eq, hres]
  simp [Except.map]

/-- Claim C4 (amended): for every source image and successfully loaded
frame on which the compositing pipeline succeeds (in particular the
interior resize neither divides by zero nor floors a dimension below 1),
the composite has exactly the frame's dimensions; when the pipeline
raises, the fallback returns the source image at its own dimensions. -/
theorem create_framed_image_dims (user_image frame : Img) (c : Composite)
    (h : create_framed_image_steps user_image (Except.ok frame) = Except.ok c) :
    (create_framed_image user_image (Except.ok frame)).width = frame.width
    ∧ (create_framed_image user_image (Except.ok frame)).height = frame.height := by
  have hc : create_framed_image user_image (Except.ok frame) = c.final := by
    unfold create_framed_image
    rw [h]
  rw [create_framed_image_steps_ok_eq] at h
  cases hr : resize_image_to_fit user_image ((frame.width : ℤ) - 2 * 50)
      ((frame.height : ℤ) - 2 * 50) with
  | error e => rw [hr] at h; simp [Except.map] at h
  | ok r =>
    rw [hr] at h
    simp only [Except.map] at h
    cases h
    rw [hc]
    exact ⟨rfl, rfl⟩

/-- Claim C4 witness: the amended statement at a 300 × 150 source and a
600 × 500 frame (interior box 500 × 400, scale 5/3, resized 500 × 250). -/
theorem create_framed_image_dims_witness :
    (create_framed_image ⟨300, 150, "RGB"⟩ (Except.ok ⟨600, 500, "RGB"⟩)).width = 600
    ∧ (create_framed_image ⟨300, 150, "RGB"⟩ (Except.ok ⟨600, 500, "RGB"⟩)).height = 500 :=
  create_framed_image_dims ⟨300, 150, "RGB"⟩ ⟨600, 500, "RGB"⟩
    ⟨⟨500, 250, "RGB"⟩, 50, 125, ⟨600, 500, "RGB"⟩⟩
    (by rw [create_framed_image_steps_ok_eq]
        norm_num [resize_image_to_fit, pyInt, min_def, Except.map]
        <;> decide)

/-- Claim C10: on every successful request the handler uploads an object
encoded as WEBP at quality 85 under the key
`framed_photos/{timestamp}_{unique_id}_{frame_type}.webp`; the key ends
in `.webp` and never involves the uploaded file's name or extension. -/
theorem process_photo_webp_key (request : HttpRequest) (gemini : Except PyError String)
    (frames : String → Except PyError Img) (timestamp unique_id url : String)
    (photo_file : PhotoFile) (image0 : Img)
    (hm : request.method = "POST")
    (hf : request.files.lookup "photo" = some photo_file)
    (hext : py_endswith (py_lower photo_file.filename) ".jpg" = true
            ∨ py_endswith (py_lower photo_file.filename) ".jpeg" = true
            ∨ py_endswith (py_lower photo_file.filename) ".png" = true)
    (hopen : photo_file.opened = Except.ok image0) :
    ∃ obj : SavedObject,
      process_photo request gemini frames (Except.ok url) timestamp unique_id
        = (⟨RespBody.success url (frame_type_of (analyze_image_with_gemini gemini))
              (analyze_image_with_gemini gemini)
              ("Photo processed successfully with "
                ++ frame_type_of (analyze_image_with_gemini gemini) ++ " frame"), 200⟩,
           [Effect.classify, Effect.composite, Effect.upload obj])
      ∧ obj.format = "WEBP" ∧ obj.quality = 85
      ∧ obj.filename = "framed_photos/" ++ timestamp ++ "_" ++ unique_id ++ "_"
          ++ frame_type_of (analyze_image_with_gemini gemini) ++ ".webp"
      ∧ ∃ stem : String, obj.filename = stem ++ ".webp" := by
  refine ⟨⟨"framed_photos/" ++ timestamp ++ "_" ++ unique_id ++ "_"
      ++ frame_type_of (analyze_image_with_gemini gemini) ++ ".webp", "WEBP", 85,
      (create_framed_image
        (if image0.mode ≠ "RGB" then { image0 with mode := "RGB" } else image0)
        (frames (if analyze_image_with_gemini gemini = "yes" then "yes.png" else "no.png"))).width,
      (create_framed_image
        (if image0.mode ≠ "RGB" then { image0 with mode := "RGB" } else image0)
        (frames (if analyze_image_with_gemini gemini = "yes" then "yes.png" else "no.png"))).height⟩,
    ?_, rfl, rfl, rfl,
    ⟨"framed_photos/" ++ timestamp ++ "_" ++ unique_id ++ "_"
      ++ frame_type_of (analyze_image_with_gemini gemini), rfl⟩⟩
  simp only [process_photo, hf, hopen, upload_to_gcs]
  rw [if_neg (show ¬ request.method = "OPTIONS" by rw [hm]; decide),
    if_neg (not_not_intro hm), if_neg (not_not_intro hext)]

/-- Claim C10 witness: a POST of `pic.JPG` with verdict `"yes"` stores a
WEBP-85 object whose key is built from the timestamp, the id and the
verdict and ends in `.webp`. -/
theorem process_photo_webp_key_witness :
    ∃ obj : SavedObject,
      process_photo ⟨"POST", [("photo", ⟨"pic.JPG", Except.ok ⟨4, 3, "RGB"⟩⟩)]⟩
          (Except.ok "yes") (fun _ => Except.error PyError.ioError)
          (Except.ok "https://storage.googleapis.com/b/o") "20260101_000000" "deadbeef"
        = (⟨RespBody.success "https://storage.googleapis.com/b/o"
              (frame_type_of (analyze_image_with_gemini (Except.ok "yes")))
              (analyze_image_with_gemini (Except.ok "yes"))
              ("Photo processed successfully with "
                ++ frame_type_of (analyze_image_with_gemini (Except.ok "yes")) ++ " frame"), 200⟩,
           [Effect.classify, Effect.composite, Effect.upload obj])
      ∧ obj.format = "WEBP" ∧ obj.quality = 85
      ∧ obj.filename = "framed_photos/" ++ "20260101_000000" ++ "_" ++ "deadbeef" ++ "_"
          ++ frame_type_of (analyze_image_with_gemini (Except.ok "yes")) ++ ".webp"
      ∧ ∃ stem : String, obj.filename = stem ++ ".webp" :=
  process_photo_webp_key ⟨"POST", [("photo", ⟨"pic.JPG", Except.ok ⟨4, 3, "RGB"⟩⟩)]⟩
    (Except.ok "yes") (fun _ => Except.error PyError.ioError)
    "20260101_000000" "deadbeef" "https://storage.googleapis.com/b/o"
    ⟨"pic.JPG", Except.ok ⟨4, 3, "RGB"⟩⟩ ⟨4, 3, "RGB"⟩
    (by decide) (by decide) (by decide) (by decide)
